import Mathlib

/-!
Shallow embedding of `switch_model/policies/Curtailment.py` (the Switch
power-system model's curtailment policy module).

The module attaches, to a model already holding generation projects,
timepoints, periods and energy sources:
  * a validated two-dimensional key set `PERIOD_Curtailment_MAX`,
  * a parameter `max_curtailment_Rate` (default 1) over that key set,
  * a non-negative variable `Curtailment` over `GEN_TPS`,
  * an equality constraint `Dispatch_Curtailment` over `GEN_TPS`,
  * an inequality constraint `Curtailment_Rate` over the key set;
loads `curtailment_rate_max.tab`; and after the solve writes a normalized
per-(project, timepoint) report plus a groupby-sum summary.

Numeric model values are rationals.  Projects and energy sources are
strings, timepoints and periods are naturals; the embedding carries the
base-model attributes the module reads as explicit fields.
-/

namespace Curtailment

/-- The base-model data the module reads: sets and attributes that
`define_components` and `post_solve` take from the surrounding model
(`mod.PERIODS`, `mod.GEN_TPS`, `instance.gen_tech`, ...). -/
structure ModelData where
  PERIODS : List Nat
  ENERGY_SOURCES : List String
  GENERATION_PROJECTS : List String
  GEN_TPS : List (String × Nat)
  TPS_IN_PERIOD : Nat → List Nat
  gen_energy_source : String → String
  tp_weight : Nat → ℚ
  tp_weight_in_year : Nat → ℚ
  tp_period : Nat → Nat
  tp_timestamp : Nat → String
  gen_dbid : String → Nat
  gen_tech : String → String
  gen_load_zone : String → String
  gen_uses_fuel : String → Bool
  gen_variable_om : String → ℚ
  FUELS_FOR_GEN : String → List String

/-- A point of the solver's variable/expression space as the module sees it
after the solve: values of `DispatchGen`, `Curtailment`, `DispatchUpperLimit`
and `DispatchEmissions`. -/
structure Solution where
  DispatchGen : String × Nat → ℚ
  Curtailment : String × Nat → ℚ
  DispatchUpperLimit : String × Nat → ℚ
  DispatchEmissions : String → Nat → String → ℚ

/-- The `validate` lambda of `mod.PERIOD_Curtailment_MAX`:
`p in m.PERIODS and e in m.ENERGY_SOURCES`. -/
def PERIOD_Curtailment_MAX_validate (m : ModelData) (p : Nat) (e : String) : Bool :=
  decide (p ∈ m.PERIODS) && decide (e ∈ m.ENERGY_SOURCES)

/-- Constructing the set `PERIOD_Curtailment_MAX` from data: every member is
checked by the `validate` lambda and construction fails (a build-time error)
when a member fails that check. -/
def buildKeySet (m : ModelData) (keys : List (Nat × String)) :
    Except String (List (Nat × String)) :=
  if keys.all (fun k => PERIOD_Curtailment_MAX_validate m k.1 k.2) then Except.ok keys
  else Except.error "PERIOD_Curtailment_MAX member fails validation"

/-- The index list `(g, t) for (g, t) in m.GENERATION_PROJECTS*m.TPS_IN_PERIOD[p]
if m.gen_energy_source[g] == e` shared by `Curtailment_Cost` and
`Curtailment_Rate`. -/
def matching_gen_tps (m : ModelData) (p : Nat) (e : String) : List (String × Nat) :=
  (m.GENERATION_PROJECTS.product (m.TPS_IN_PERIOD p)).filter
    (fun gt => m.gen_energy_source gt.1 == e)

/-- The expression `mod.Curtailment_Cost`:
`sum(m.Curtailment[g, t] ...)` over the matching pairs. -/
def Curtailment_Cost (m : ModelData) (sol : Solution) (p : Nat) (e : String) : ℚ :=
  ((matching_gen_tps m p e).map (fun gt => sol.Curtailment gt)).sum

/-- The left-hand sum of the `Curtailment_Rate` constraint:
`sum(m.Curtailment[g, t] * m.tp_weight[t] ...)` over the matching pairs. -/
def curtailment_weighted (m : ModelData) (sol : Solution) (p : Nat) (e : String) : ℚ :=
  ((matching_gen_tps m p e).map (fun gt => sol.Curtailment gt * m.tp_weight gt.2)).sum

/-- The right-hand sum of the `Curtailment_Rate` constraint:
`sum(m.DispatchUpperLimit[g, t] * m.tp_weight[t] ...)` over the matching pairs. -/
def upper_limit_weighted (m : ModelData) (sol : Solution) (p : Nat) (e : String) : ℚ :=
  ((matching_gen_tps m p e).map
    (fun gt => sol.DispatchUpperLimit gt * m.tp_weight gt.2)).sum

/-- The body of the constraint `mod.Dispatch_Curtailment` at one `(g, t)`:
`m.DispatchGen[g, t] + m.Curtailment[g, t] == m.DispatchUpperLimit[g, t]`. -/
def Dispatch_Curtailment_ok (sol : Solution) (gt : String × Nat) : Bool :=
  decide (sol.DispatchGen gt + sol.Curtailment gt = sol.DispatchUpperLimit gt)

/-- The body of the constraint `mod.Curtailment_Rate` at one key `(p, e)`. -/
def Curtailment_Rate_ok (m : ModelData) (sol : Solution) (rate : Nat → String → ℚ)
    (p : Nat) (e : String) : Bool :=
  decide (curtailment_weighted m sol p e ≤ rate p e * upper_limit_weighted m sol p e)

/-- A solution is feasible for the components this module defines when the
variable domain (`Curtailment` within `NonNegativeReals` over `GEN_TPS`) and
both constraint families hold: `Dispatch_Curtailment` at every member of
`GEN_TPS` and `Curtailment_Rate` at every key of `PERIOD_Curtailment_MAX`
(`keys`), with `rate` the loaded `max_curtailment_Rate`. -/
def module_feasible (m : ModelData) (keys : List (Nat × String))
    (rate : Nat → String → ℚ) (sol : Solution) : Bool :=
  (m.GEN_TPS.all fun gt =>
      decide (0 ≤ sol.Curtailment gt) && Dispatch_Curtailment_ok sol gt)
    && (keys.all fun k => Curtailment_Rate_ok m sol rate k.1 k.2)

/-- One row of `curtailment_rate_max.tab` after the `select` of `load_inputs`
has picked the columns `Period`, `Energy_Source`, `Max_Curtailment_Rate`. -/
structure CurtailRow where
  Period : Nat
  Energy_Source : String
  Max_Curtailment_Rate : ℚ
deriving DecidableEq

/-- Modelled from the spec: `switch_data.load_aug` is framework code
(`switch_model.utilities`), not part of this module's file.  Per the spec the
loader populates the key set `PERIOD_Curtailment_MAX` with the file's
(Period, Energy_Source) pairs. -/
def load_keys (rows : List CurtailRow) : List (Nat × String) :=
  rows.map fun r => (r.Period, r.Energy_Source)

/-- Modelled from the spec: the loaded parameter `max_curtailment_Rate` maps a
key listed in the file to that row's `Max_Curtailment_Rate`; a key with no
explicit entry takes the declared `default=1`. -/
def loaded_max_curtailment_Rate (rows : List CurtailRow) (p : Nat) (e : String) : ℚ :=
  match rows.find? (fun r => r.Period == p && r.Energy_Source == e) with
  | some r => r.Max_Curtailment_Rate
  | none => 1

/-- What `load_inputs` produces: the populated key set and parameter. -/
structure LoadedData where
  keys : List (Nat × String)
  rate : Nat → String → ℚ

/-- The one filename `load_inputs` passes to `load_aug`:
`os.path.join(inputs_dir, 'curtailment_rate_max.tab')`. -/
def curtailment_file_name : String := "curtailment_rate_max.tab"

/-- The fatal load-time error for the mandatory file being absent. -/
def missing_file_error : String := "missing mandatory input file curtailment_rate_max.tab"

/-- Modelled from the spec: `load_inputs` reads the one mandatory tabular file
`curtailment_rate_max.tab` from the inputs directory (a map from filename to
optional parsed content); a missing mandatory file is a fatal load-time
error, a present file populates the key set and the parameter. -/
def load_inputs (dir : String → Option (List CurtailRow)) : Except String LoadedData :=
  match dir curtailment_file_name with
  | none => Except.error missing_file_error
  | some rows => Except.ok ⟨load_keys rows, loaded_max_curtailment_Rate rows⟩

/-- The build pipeline around this module: load the inputs, then construct the
validated key set (constraints are only built on instance data that loaded).
A load failure aborts before any constraint is built. -/
def buildInstance (m : ModelData) (dir : String → Option (List CurtailRow)) :
    Except String LoadedData :=
  match load_inputs dir with
  | Except.error e => Except.error e
  | Except.ok ld =>
    match buildKeySet m ld.keys with
    | Except.error e => Except.error e
    | Except.ok ks => Except.ok ⟨ks, ld.rate⟩

/-- One record of `dispatch_normalized_dat` in `post_solve`: the keys of the
dict literal, in order, with `None` for the emissions of a project that uses
no fuel. -/
structure DispatchRecord where
  generation_project : String
  gen_dbid : Nat
  gen_tech : String
  gen_load_zone : String
  gen_energy_source : String
  timestamp : String
  tp_weight_in_year_hrs : ℚ
  period : Nat
  DispatchGen_MW_ideal : ℚ
  DispatchGen_MW_actual : ℚ
  Energy_GWh_typical_yr_ideal : ℚ
  Energy_GWh_typical_yr_actual : ℚ
  VariableCost_per_yr : ℚ
  DispatchEmissions_tCO2_per_typical_yr : Option ℚ
deriving DecidableEq

/-- The dict `post_solve` builds for one `(g, t)` of `instance.GEN_TPS`. -/
def dispatchRecord (m : ModelData) (sol : Solution) (g : String) (t : Nat) :
    DispatchRecord where
  generation_project := g
  gen_dbid := m.gen_dbid g
  gen_tech := m.gen_tech g
  gen_load_zone := m.gen_load_zone g
  gen_energy_source := m.gen_energy_source g
  timestamp := m.tp_timestamp t
  tp_weight_in_year_hrs := m.tp_weight_in_year t
  period := m.tp_period t
  DispatchGen_MW_ideal := sol.DispatchUpperLimit (g, t)
  DispatchGen_MW_actual := sol.DispatchGen (g, t)
  Energy_GWh_typical_yr_ideal := sol.DispatchUpperLimit (g, t) * m.tp_weight_in_year t / 1000
  Energy_GWh_typical_yr_actual := sol.DispatchGen (g, t) * m.tp_weight_in_year t / 1000
  VariableCost_per_yr :=
    sol.DispatchUpperLimit (g, t) * m.gen_variable_om g * m.tp_weight_in_year t
  DispatchEmissions_tCO2_per_typical_yr :=
    if m.gen_uses_fuel g then
      some (((m.FUELS_FOR_GEN g).map
        (fun f => sol.DispatchEmissions g t f * m.tp_weight_in_year t)).sum)
    else none

/-- The list comprehension `dispatch_normalized_dat = [{...} for g, t in
instance.GEN_TPS]`. -/
def dispatch_normalized_dat (m : ModelData) (sol : Solution) : List DispatchRecord :=
  m.GEN_TPS.map fun gt => dispatchRecord m sol gt.1 gt.2

/-- The grouping key of `groupby(['gen_tech', "gen_energy_source", "period"])`. -/
def recKey (r : DispatchRecord) : String × String × Nat :=
  (r.gen_tech, r.gen_energy_source, r.period)

/-- One row of the grouped data frame restricted to the four columns
`to_csv` keeps for `Curtailment_energy.csv`. -/
structure SummaryRow where
  Energy_GWh_typical_yr_ideal : ℚ
  Energy_GWh_typical_yr_actual : ℚ
  VariableCost_per_yr : ℚ
  DispatchEmissions_tCO2_per_typical_yr : ℚ
deriving DecidableEq

/-- pandas `.sum()` over a column holding missing values: `None` becomes NaN
in a float column and `sum` skips NaN, so the sum is over the present values,
and a group with no present value sums to 0. -/
def sumOpt (xs : List (Option ℚ)) : ℚ :=
  (xs.filterMap id).sum

/-- The group of records sharing one grouping key. -/
def groupOf (recs : List DispatchRecord) (k : String × String × Nat) :
    List DispatchRecord :=
  recs.filter fun r => decide (recKey r = k)

/-- The `.sum()` of one group, restricted to the four exported columns. -/
def summaryRow (recs : List DispatchRecord) (k : String × String × Nat) : SummaryRow where
  Energy_GWh_typical_yr_ideal :=
    ((groupOf recs k).map (fun r => r.Energy_GWh_typical_yr_ideal)).sum
  Energy_GWh_typical_yr_actual :=
    ((groupOf recs k).map (fun r => r.Energy_GWh_typical_yr_actual)).sum
  VariableCost_per_yr :=
    ((groupOf recs k).map (fun r => r.VariableCost_per_yr)).sum
  DispatchEmissions_tCO2_per_typical_yr :=
    sumOpt ((groupOf recs k).map (fun r => r.DispatchEmissions_tCO2_per_typical_yr))

/-- The distinct grouping keys present in the records (pandas emits one group
row per distinct key; row order in the CSV is not modelled). -/
def groupKeys (recs : List DispatchRecord) : List (String × String × Nat) :=
  (recs.map recKey).dedup

/-- `dispatch_full_df.groupby(['gen_tech', "gen_energy_source", "period"]).sum()`
restricted to the four columns of `Curtailment_energy.csv`: one row per
distinct grouping key, column-wise sums within each group. -/
def annual_summary (recs : List DispatchRecord) :
    List ((String × String × Nat) × SummaryRow) :=
  (groupKeys recs).map fun k => (k, summaryRow recs k)

/-! Concrete data used to witness the theorems: a one-project, one-timepoint
model matching the spec's report scenario, a feasible solution against the
key `(2030, Solar)` with rate `1/5`, and concrete detail records for the
aggregation scenarios. -/

/-- A concrete base model: project `G1` (technology `PV`, source `Solar`,
no fuel use, variable O&M 2) and timepoint `1` (timestamp `T1`, weights 10,
period 2030). -/
def m0 : ModelData where
  PERIODS := [2030]
  ENERGY_SOURCES := ["Solar", "Wind"]
  GENERATION_PROJECTS := ["G1"]
  GEN_TPS := [("G1", 1)]
  TPS_IN_PERIOD := fun p => if p = 2030 then [1] else []
  gen_energy_source := fun _ => "Solar"
  tp_weight := fun _ => 10
  tp_weight_in_year := fun _ => 10
  tp_period := fun _ => 2030
  tp_timestamp := fun _ => "T1"
  gen_dbid := fun _ => 1
  gen_tech := fun _ => "PV"
  gen_load_zone := fun _ => "Z1"
  gen_uses_fuel := fun _ => false
  gen_variable_om := fun _ => 2
  FUELS_FOR_GEN := fun _ => []

/-- A concrete solved point: ceiling 100, dispatch 80, curtailment 20. -/
def sol0 : Solution where
  DispatchGen := fun _ => 80
  Curtailment := fun _ => 20
  DispatchUpperLimit := fun _ => 100
  DispatchEmissions := fun _ _ _ => 0

/-- A concrete curtailment-limit key set. -/
def keys0 : List (Nat × String) := [(2030, "Solar")]

/-- A concrete curtailment-rate parameter: 20 percent everywhere. -/
def rate0 : Nat → String → ℚ := fun _ _ => 1 / 5

/-- A model with one fuel-using and one non-fuel project, for the emissions
field. -/
def m7 : ModelData :=
  { m0 with
    GENERATION_PROJECTS := ["GasPlant", "PVPlant"]
    GEN_TPS := [("GasPlant", 1), ("PVPlant", 1)]
    gen_energy_source := fun g => if g = "GasPlant" then "Gas" else "Solar"
    gen_uses_fuel := fun g => g == "GasPlant"
    FUELS_FOR_GEN := fun g => if g = "GasPlant" then ["Gas"] else [] }

/-- A solved point with emission rate 5 on every (project, timepoint, fuel). -/
def sol7 : Solution :=
  { sol0 with DispatchEmissions := fun _ _ _ => 5 }

/-- A concrete detail record (project `G1`, group key `(PV, Solar, 2030)`,
no fuel use). -/
def recA : DispatchRecord where
  generation_project := "G1"
  gen_dbid := 1
  gen_tech := "PV"
  gen_load_zone := "Z1"
  gen_energy_source := "Solar"
  timestamp := "T1"
  tp_weight_in_year_hrs := 10
  period := 2030
  DispatchGen_MW_ideal := 100
  DispatchGen_MW_actual := 80
  Energy_GWh_typical_yr_ideal := 1
  Energy_GWh_typical_yr_actual := 4 / 5
  VariableCost_per_yr := 2000
  DispatchEmissions_tCO2_per_typical_yr := none

/-- A second project with the same group key `(PV, Solar, 2030)` as `recA`. -/
def recB : DispatchRecord :=
  { recA with
    generation_project := "G2"
    gen_dbid := 2
    Energy_GWh_typical_yr_ideal := 2
    Energy_GWh_typical_yr_actual := 1
    VariableCost_per_yr := 3000 }

/-- A project whose group key `(Wind, Wind, 2030)` differs from `recA`. -/
def recC : DispatchRecord :=
  { recA with
    generation_project := "G3"
    gen_dbid := 3
    gen_tech := "Wind"
    gen_energy_source := "Wind" }

/-- A fuel-using project sharing the group key `(PV, Solar, 2030)` with
`recA`, with annualized emissions 5. -/
def recF : DispatchRecord :=
  { recA with
    generation_project := "G4"
    gen_dbid := 4
    DispatchEmissions_tCO2_per_typical_yr := some 5 }

/-! Helper lemmas shared by the feasibility theorems. -/

/-- Unpacking `module_feasible` at one member of `GEN_TPS`. -/
theorem feasible_gen_tp (m : ModelData) (keys : List (Nat × String))
    (rate : Nat → String → ℚ) (sol : Solution)
    (h : module_feasible m keys rate sol = true)
    (gt : String × Nat) (hmem : gt ∈ m.GEN_TPS) :
    0 ≤ sol.Curtailment gt ∧
      sol.DispatchGen gt + sol.Curtailment gt = sol.DispatchUpperLimit gt := by
  unfold module_feasible at h
  simp only [Bool.and_eq_true, List.all_eq_true] at h
  have h2 := h.1 gt hmem
  exact ⟨of_decide_eq_true h2.1, of_decide_eq_true h2.2⟩

/-- Unpacking `module_feasible` at one key of `PERIOD_Curtailment_MAX`. -/
theorem feasible_rate_key (m : ModelData) (keys : List (Nat × String))
    (rate : Nat → String → ℚ) (sol : Solution)
    (h : module_feasible m keys rate sol = true)
    (k : Nat × String) (hmem : k ∈ keys) :
    curtailment_weighted m sol k.1 k.2 ≤
      rate k.1 k.2 * upper_limit_weighted m sol k.1 k.2 := by
  unfold module_feasible at h
  simp only [Bool.and_eq_true, List.all_eq_true] at h
  exact of_decide_eq_true (h.2 k hmem)

/-- The concrete point `sol0` is feasible for the module's constraints on
`m0` with key set `keys0` and rate `rate0`: curtailment 20 is non-negative,
80 + 20 = 100, and 20 * 10 is at most (1/5) * (100 * 10). -/
theorem m0_feasible : module_feasible m0 keys0 rate0 sol0 = true := by
  norm_num [module_feasible, Dispatch_Curtailment_ok, Curtailment_Rate_ok,
    curtailment_weighted, upper_limit_weighted, matching_gen_tps, List.product,
    m0, sol0, keys0, rate0]

/-- Claim C1: for every (generation project, timepoint) pair in `GEN_TPS`, the
`Dispatch_Curtailment` equality constraint holds in every feasible solution:
dispatched power plus curtailed power equals the dispatch ceiling. -/
theorem C1_dispatch_curtailment_equality (m : ModelData) (keys : List (Nat × String))
    (rate : Nat → String → ℚ) (sol : Solution)
    (hfeas : module_feasible m keys rate sol = true)
    (g : String) (t : Nat) (hmem : (g, t) ∈ m.GEN_TPS) :
    sol.DispatchGen (g, t) + sol.Curtailment (g, t) = sol.DispatchUpperLimit (g, t) :=
  (feasible_gen_tp m keys rate sol hfeas (g, t) hmem).2

/-- Witness for C1 at the concrete model `m0` with solution `sol0`. -/
theorem C1_dispatch_curtailment_equality_witness :
    module_feasible m0 keys0 rate0 sol0 = true ∧ ("G1", 1) ∈ m0.GEN_TPS ∧
      sol0.DispatchGen ("G1", 1) + sol0.Curtailment ("G1", 1) =
        sol0.DispatchUpperLimit ("G1", 1) :=
  ⟨m0_feasible, by decide,
    C1_dispatch_curtailment_equality m0 keys0 rate0 sol0 m0_feasible "G1" 1 (by decide)⟩

/-- Claim C2: for every key `(p, e)` of `PERIOD_Curtailment_MAX`, the
`Curtailment_Rate` constraint holds in every feasible solution: the
timepoint-weighted curtailment sum over matching (project, timepoint) pairs
is at most `max_curtailment_Rate[p, e]` times the weighted sum of dispatch
ceilings over the same pairs. -/
theorem C2_curtailment_rate_bound (m : ModelData) (keys : List (Nat × String))
    (rate : Nat → String → ℚ) (sol : Solution)
    (hfeas : module_feasible m keys rate sol = true)
    (p : Nat) (e : String) (hmem : (p, e) ∈ keys) :
    curtailment_weighted m sol p e ≤ rate p e * upper_limit_weighted m sol p e :=
  feasible_rate_key m keys rate sol hfeas (p, e) hmem

/-- Witness for C2 at the concrete model `m0` with solution `sol0`. -/
theorem C2_curtailment_rate_bound_witness :
    module_feasible m0 keys0 rate0 sol0 = true ∧ (2030, "Solar") ∈ keys0 ∧
      curtailment_weighted m0 sol0 2030 "Solar" ≤
        rate0 2030 "Solar" * upper_limit_weighted m0 sol0 2030 "Solar" :=
  ⟨m0_feasible, by decide,
    C2_curtailment_rate_bound m0 keys0 rate0 sol0 m0_feasible 2030 "Solar" (by decide)⟩

/-- Claim C9: in every feasible solution, for every pair in `GEN_TPS`, both
`DispatchGen` and `Curtailment` are at most `DispatchUpperLimit`, given the
base model's non-negativity of `DispatchGen`; `Curtailment` is non-negative
by its variable domain and the `Dispatch_Curtailment` equality ties the three
together. -/
theorem C9_dispatch_below_upper_limit (m : ModelData) (keys : List (Nat × String))
    (rate : Nat → String → ℚ) (sol : Solution)
    (hfeas : module_feasible m keys rate sol = true)
    (g : String) (t : Nat) (hmem : (g, t) ∈ m.GEN_TPS)
    (hdg : 0 ≤ sol.DispatchGen (g, t)) :
    sol.DispatchGen (g, t) ≤ sol.DispatchUpperLimit (g, t) ∧
      sol.Curtailment (g, t) ≤ sol.DispatchUpperLimit (g, t) := by
  obtain ⟨hc, heq⟩ := feasible_gen_tp m keys rate sol hfeas (g, t) hmem
  constructor
  · linarith
  · linarith

/-- Witness for C9 at the concrete model `m0` with solution `sol0`. -/
theorem C9_dispatch_below_upper_limit_witness :
    module_feasible m0 keys0 rate0 sol0 = true ∧ ("G1", 1) ∈ m0.GEN_TPS ∧
      0 ≤ sol0.DispatchGen ("G1", 1) ∧
      sol0.DispatchGen ("G1", 1) ≤ sol0.DispatchUpperLimit ("G1", 1) ∧
      sol0.Curtailment ("G1", 1) ≤ sol0.DispatchUpperLimit ("G1", 1) :=
  ⟨m0_feasible, by decide, by decide,
    C9_dispatch_below_upper_limit m0 keys0 rate0 sol0 m0_feasible "G1" 1
      (by decide) (by decide)⟩

/-- The input rows of the round-trip scenario: one row `(2030, Solar, 0.2)`. -/
def rows3 : List CurtailRow := [⟨2030, "Solar", 1 / 5⟩]

/-- An inputs directory with no file at all. -/
def dir0 : String → Option (List CurtailRow) := fun _ => none

/-- A key set with a member whose period 2031 is not a declared period of
`m0`. -/
def keysBad : List (Nat × String) := [(2031, "Solar")]

/-- Claim C3: a key `(P, E)` listed in `curtailment_rate_max.tab` as a row
`(P, E, r)` (uniquely, as a tabular index) reads back as `r`, and a pair
`(P2, E2)` with no row in the file takes the effective default 1. -/
theorem C3_load_roundtrip (rows : List CurtailRow) (P P2 : Nat) (E E2 : String) (r : ℚ)
    (hmem : CurtailRow.mk P E r ∈ rows)
    (huniq : ∀ r2 ∈ rows, r2.Period = P → r2.Energy_Source = E →
      r2.Max_Curtailment_Rate = r)
    (habs : ∀ r2 ∈ rows, ¬(r2.Period = P2 ∧ r2.Energy_Source = E2)) :
    loaded_max_curtailment_Rate rows P E = r ∧
      loaded_max_curtailment_Rate rows P2 E2 = 1 := by
  constructor
  · unfold loaded_max_curtailment_Rate
    cases hfind : rows.find? (fun r2 => r2.Period == P && r2.Energy_Source == E) with
    | none =>
        rw [List.find?_eq_none] at hfind
        have := hfind (CurtailRow.mk P E r) hmem
        simp at this
    | some rfound =>
        have hp := List.find?_some hfind
        have hm := List.mem_of_find?_eq_some hfind
        simp only [Bool.and_eq_true, beq_iff_eq] at hp
        exact huniq rfound hm hp.1 hp.2
  · unfold loaded_max_curtailment_Rate
    cases hfind : rows.find? (fun r2 => r2.Period == P2 && r2.Energy_Source == E2) with
    | none => rfl
    | some rfound =>
        have hp := List.find?_some hfind
        have hm := List.mem_of_find?_eq_some hfind
        simp only [Bool.and_eq_true, beq_iff_eq] at hp
        exact absurd hp (habs rfound hm)

/-- Witness for C3: the file `[(2030, Solar, 0.2)]` reads back `0.2` at
`(2030, Solar)` and `1` at the unlisted `(2030, Wind)`. -/
theorem C3_load_roundtrip_witness :
    CurtailRow.mk 2030 "Solar" (1 / 5) ∈ rows3 ∧
      (∀ r2 ∈ rows3, r2.Period = 2030 → r2.Energy_Source = "Solar" →
        r2.Max_Curtailment_Rate = 1 / 5) ∧
      (∀ r2 ∈ rows3, ¬(r2.Period = 2030 ∧ r2.Energy_Source = "Wind")) ∧
      (loaded_max_curtailment_Rate rows3 2030 "Solar" = 1 / 5 ∧
        loaded_max_curtailment_Rate rows3 2030 "Wind" = 1) :=
  ⟨by simp [rows3], by simp [rows3], by simp [rows3],
    C3_load_roundtrip rows3 2030 2030 "Solar" "Wind" (1 / 5)
      (by simp [rows3]) (by simp [rows3]) (by simp [rows3])⟩

/-- Claim C4: `load_inputs` consults exactly one mandatory file,
`curtailment_rate_max.tab`; when that file is absent the load fails with a
fatal error and the build pipeline aborts before any constraint is built
(no default substitution); when present, that one file alone determines the
populated key set and parameter. -/
theorem C4_mandatory_input_file (m : ModelData) (dir : String → Option (List CurtailRow))
    (hmissing : dir curtailment_file_name = none) :
    load_inputs dir = Except.error missing_file_error ∧
      buildInstance m dir = Except.error missing_file_error ∧
      (∀ dir2 dir3 : String → Option (List CurtailRow),
        dir2 curtailment_file_name = dir3 curtailment_file_name →
        load_inputs dir2 = load_inputs dir3) ∧
      (∀ (dir4 : String → Option (List CurtailRow)) (rows : List CurtailRow),
        dir4 curtailment_file_name = some rows →
        load_inputs dir4 =
          Except.ok ⟨load_keys rows, loaded_max_curtailment_Rate rows⟩) := by
  refine ⟨?_, ?_, ?_, ?_⟩
  · unfold load_inputs
    rw [hmissing]
  · unfold buildInstance load_inputs
    rw [hmissing]
  · intro dir2 dir3 h
    unfold load_inputs
    rw [h]
  · intro dir4 rows h
    unfold load_inputs
    rw [h]

/-- Witness for C4 at the empty inputs directory `dir0`. -/
theorem C4_mandatory_input_file_witness :
    dir0 curtailment_file_name = none ∧
      (load_inputs dir0 = Except.error missing_file_error ∧
        buildInstance m0 dir0 = Except.error missing_file_error ∧
        (∀ dir2 dir3 : String → Option (List CurtailRow),
          dir2 curtailment_file_name = dir3 curtailment_file_name →
          load_inputs dir2 = load_inputs dir3) ∧
        (∀ (dir4 : String → Option (List CurtailRow)) (rows : List CurtailRow),
          dir4 curtailment_file_name = some rows →
          load_inputs dir4 =
            Except.ok ⟨load_keys rows, loaded_max_curtailment_Rate rows⟩)) :=
  ⟨rfl, C4_mandatory_input_file m0 dir0 rfl⟩

/-- Claim C8: the key set `PERIOD_Curtailment_MAX` is validated at
declaration: a member whose period is not in `PERIODS` or whose energy source
is not in `ENERGY_SOURCES` makes the build fail, so any key set that builds
holds only keys referencing a declared period and a declared energy source. -/
theorem C8_key_set_validation (m : ModelData) (keys : List (Nat × String))
    (k : Nat × String) (hk : k ∈ keys)
    (hbad : ¬(k.1 ∈ m.PERIODS ∧ k.2 ∈ m.ENERGY_SOURCES)) :
    buildKeySet m keys = Except.error "PERIOD_Curtailment_MAX member fails validation" ∧
      ∀ (m2 : ModelData) (keys2 ks : List (Nat × String)),
        buildKeySet m2 keys2 = Except.ok ks →
        ∀ k2 ∈ ks, k2.1 ∈ m2.PERIODS ∧ k2.2 ∈ m2.ENERGY_SOURCES := by
  constructor
  · unfold buildKeySet
    rw [if_neg]
    intro hall
    rw [List.all_eq_true] at hall
    have h2 := hall k hk
    unfold PERIOD_Curtailment_MAX_validate at h2
    simp only [Bool.and_eq_true, decide_eq_true_eq] at h2
    exact hbad h2
  · intro m2 keys2 ks hok k2 hk2
    unfold buildKeySet at hok
    split at hok
    case isTrue hall =>
      cases hok
      rw [List.all_eq_true] at hall
      have h2 := hall k2 hk2
      unfold PERIOD_Curtailment_MAX_validate at h2
      simpa using h2
    case isFalse hall => cases hok

/-- Witness for C8: the key `(2031, Solar)` fails validation on `m0` (2031 is
no declared period), so building `keysBad` errors. -/
theorem C8_key_set_validation_witness :
    (2031, "Solar") ∈ keysBad ∧
      ¬((2031, "Solar").1 ∈ m0.PERIODS ∧ (2031, "Solar").2 ∈ m0.ENERGY_SOURCES) ∧
      (buildKeySet m0 keysBad =
          Except.error "PERIOD_Curtailment_MAX member fails validation" ∧
        ∀ (m2 : ModelData) (keys2 ks : List (Nat × String)),
          buildKeySet m2 keys2 = Except.ok ks →
          ∀ k2 ∈ ks, k2.1 ∈ m2.PERIODS ∧ k2.2 ∈ m2.ENERGY_SOURCES) :=
  ⟨by decide, by decide,
    C8_key_set_validation m0 keysBad (2031, "Solar") (by decide) (by decide)⟩

/-- Claim C5: every detail record of `post_solve` carries
`Energy_GWh_typical_yr_ideal = DispatchUpperLimit * tp_weight_in_year / 1000`,
`Energy_GWh_typical_yr_actual = DispatchGen * tp_weight_in_year / 1000` and
`VariableCost_per_yr = DispatchUpperLimit * gen_variable_om *
tp_weight_in_year`; on the spec's scenario (weight 10, ceiling 100, dispatch
80, variable O&M 2, no fuel use) the row reads 1.0 GWh ideal, 0.8 GWh
actual, cost 2000 and null emissions. -/
theorem C5_detail_record_formulas :
    (∀ (m : ModelData) (sol : Solution) (g : String) (t : Nat),
        (dispatchRecord m sol g t).Energy_GWh_typical_yr_ideal
          = sol.DispatchUpperLimit (g, t) * m.tp_weight_in_year t / 1000 ∧
        (dispatchRecord m sol g t).Energy_GWh_typical_yr_actual
          = sol.DispatchGen (g, t) * m.tp_weight_in_year t / 1000 ∧
        (dispatchRecord m sol g t).VariableCost_per_yr
          = sol.DispatchUpperLimit (g, t) * m.gen_variable_om g *
              m.tp_weight_in_year t) ∧
    (dispatchRecord m0 sol0 "G1" 1).Energy_GWh_typical_yr_ideal = 1 ∧
    (dispatchRecord m0 sol0 "G1" 1).Energy_GWh_typical_yr_actual = 4 / 5 ∧
    (dispatchRecord m0 sol0 "G1" 1).VariableCost_per_yr = 2000 ∧
    (dispatchRecord m0 sol0 "G1" 1).DispatchEmissions_tCO2_per_typical_yr = none := by
  refine ⟨fun m sol g t => ⟨rfl, rfl, rfl⟩, ?_, ?_, ?_, ?_⟩ <;>
    norm_num [dispatchRecord, m0, sol0]

/-- Claim C7: the emissions field of a detail record is the sum over the
project's usable fuels of `DispatchEmissions * tp_weight_in_year` when the
project uses fuel, and null when it does not; concretely, a fuel project with
one fuel at emission rate 5 and weight 10 reads 50, a non-fuel project reads
null. -/
theorem C7_emissions_field :
    (∀ (m : ModelData) (sol : Solution) (g : String) (t : Nat),
        (dispatchRecord m sol g t).DispatchEmissions_tCO2_per_typical_yr
          = if m.gen_uses_fuel g then
              some (((m.FUELS_FOR_GEN g).map
                (fun f => sol.DispatchEmissions g t f * m.tp_weight_in_year t)).sum)
            else none) ∧
    (dispatchRecord m7 sol7 "GasPlant" 1).DispatchEmissions_tCO2_per_typical_yr
      = some 50 ∧
    (dispatchRecord m7 sol7 "PVPlant" 1).DispatchEmissions_tCO2_per_typical_yr
      = none := by
  refine ⟨fun m sol g t => rfl, ?_, ?_⟩
  · norm_num [dispatchRecord, m7, sol7, m0, sol0]
  · norm_num [dispatchRecord, m7, sol7, m0, sol0]
    intro h
    exact absurd h (by decide)

/-- Claim C6: the summary groups the detail records by
`(gen_tech, gen_energy_source, period)` with one row per distinct key,
summing each exported column over the group: the keys of `annual_summary` are
exactly the record keys without duplicates and every row carries the group's
column sums; two records sharing the key `(PV, Solar, 2030)` land summed in
one row, and records whose keys differ get separate rows. -/
theorem C6_annual_summary_grouping :
    (∀ (recs : List DispatchRecord) (k : String × String × Nat),
        (k ∈ (annual_summary recs).map Prod.fst ↔ k ∈ recs.map recKey) ∧
        ((annual_summary recs).map Prod.fst).Nodup ∧
        ∀ sr, (k, sr) ∈ annual_summary recs → sr = summaryRow recs k) ∧
    annual_summary [recA, recB] =
      [(("PV", "Solar", 2030), ⟨3, 9 / 5, 5000, 0⟩)] ∧
    annual_summary [recA, recC] =
      [(("PV", "Solar", 2030), ⟨1, 4 / 5, 2000, 0⟩),
        (("Wind", "Wind", 2030), ⟨1, 4 / 5, 2000, 0⟩)] := by
  refine ⟨?_, ?_, ?_⟩
  · intro recs k
    have hmap : (annual_summary recs).map Prod.fst = groupKeys recs := by
      simp [annual_summary, List.map_map, Function.comp_def]
    refine ⟨?_, ?_, ?_⟩
    · rw [hmap, groupKeys]
      exact List.mem_dedup
    · rw [hmap]
      exact List.nodup_dedup _
    · intro sr h
      simp only [annual_summary, List.mem_map] at h
      obtain ⟨k2, hk2, heq⟩ := h
      rw [Prod.mk.injEq] at heq
      obtain ⟨rfl, h2⟩ := heq
      exact h2.symm
  · norm_num [annual_summary, groupKeys, summaryRow, groupOf, sumOpt, recKey,
      recA, recB, recC, List.dedup_cons_of_mem, List.dedup_cons_of_not_mem]
  · have hdd : ([("PV", "Solar", 2030), ("Wind", "Wind", 2030)] :
        List (String × String × Nat)).dedup =
        [("PV", "Solar", 2030), ("Wind", "Wind", 2030)] := by
      rw [List.dedup_cons_of_not_mem (by decide),
        List.dedup_cons_of_not_mem (List.not_mem_nil _), List.dedup_nil]
    norm_num +decide [annual_summary, groupKeys, summaryRow, groupOf, sumOpt, recKey,
      recA, recB, recC, hdd]

/-- Claim C10: the group-wise emissions sum skips missing values: the
emissions column of a summary row is the sum of the present (`some`) values
of its group, so a `(PV, Solar, 2030)` group mixing the fuel record `recF`
(emissions 5) with the non-fuel record `recA` (null) sums to 5, and the group
of the two non-fuel records `recA`, `recB` appears in `Curtailment_energy.csv`
with emissions 0, not null. -/
theorem C10_emissions_skip_missing :
    (∀ (recs : List DispatchRecord) (k : String × String × Nat),
        (summaryRow recs k).DispatchEmissions_tCO2_per_typical_yr
          = ((groupOf recs k).filterMap
              (fun r => r.DispatchEmissions_tCO2_per_typical_yr)).sum) ∧
    (summaryRow [recF, recA]
        ("PV", "Solar", 2030)).DispatchEmissions_tCO2_per_typical_yr = 5 ∧
    (summaryRow [recA, recB]
        ("PV", "Solar", 2030)).DispatchEmissions_tCO2_per_typical_yr = 0 ∧
    (("PV", "Solar", 2030), ⟨3, 9 / 5, 5000, 0⟩) ∈ annual_summary [recA, recB] := by
  refine ⟨?_, ?_, ?_, ?_⟩
  · intro recs k
    simp [summaryRow, sumOpt, List.filterMap_map]
  · norm_num [summaryRow, groupOf, sumOpt, recKey, recA, recF, List.filterMap_cons]
  · norm_num [summaryRow, groupOf, sumOpt, recKey, recA, recB]
  · norm_num [annual_summary, groupKeys, summaryRow, groupOf, sumOpt, recKey,
      recA, recB]

end Curtailment
